import Mathlib

/-!
# BeliLite server — formal model

A shallow embedding of the request handlers in `server.js` of the BeliLite
note-taking application.

Modelling conventions:
* The SQLite `notes` table is a `Db`: a list of rows plus the AUTOINCREMENT
  counter (`nextId`), so ids are never reused.
* Timestamps (`DATETIME`) are modelled as a `Nat` logical clock; each handler
  invocation receives the current time `now` as an argument.  Theorems that
  need time to have advanced between two requests take that as a hypothesis.
* JSON request bodies are records of `Option String` fields: `none` models an
  absent field, `some s` a string field.  JavaScript's truthiness test
  `!title` on a string-or-absent value is `falsyStr`.
* Each handler is a pure function returning the HTTP response together with
  the database state after the statement ran.
-/

namespace BeliLite

/-- A row of the `notes` table:
`id INTEGER PRIMARY KEY AUTOINCREMENT, title TEXT NOT NULL, content TEXT,
created_at DATETIME, updated_at DATETIME`. -/
structure Note where
  id : Nat
  title : String
  content : String
  created_at : Nat
  updated_at : Nat
deriving Repr, DecidableEq

/-- The database: the stored rows (in insertion order) and the
AUTOINCREMENT counter for the next assigned id. -/
structure Db where
  notes : List Note
  nextId : Nat
deriving Repr, DecidableEq

/-- An HTTP response: either a 200 with a JSON payload, or an error status
with an `{ error: ... }` message. -/
inductive Resp (α : Type) where
  | ok : α → Resp α
  | err : Nat → String → Resp α
deriving Repr, DecidableEq

/-- JavaScript truthiness test `!x` applied to a request-body field that is
either absent (`none`) or a string: `undefined` and `''` are falsy. -/
def falsyStr : Option String → Bool
  | none => true
  | some s => s == ""

/-- `SELECT * FROM notes WHERE id = ?` — first row matching `id`. -/
def selectNote (notes : List Note) (id : Nat) : Option Note :=
  notes.find? (fun n => n.id == id)

/-- `GET /api/notes/:id` (`server.js` lines 103–116): return the row, or 404
if absent. -/
def getNote (db : Db) (id : Nat) : Resp Note :=
  match selectNote db.notes id with
  | none => .err 404 "Note not found"
  | some row => .ok row

/-- `POST /api/notes` (`server.js` lines 127–153): reject a falsy title with
400, otherwise `INSERT INTO notes (title, content) VALUES (?, ?)` with
`content || ''` and respond with the created record (id = `this.lastID`). -/
def createNote (db : Db) (title content : Option String) (now : Nat) :
    Resp Note × Db :=
  if falsyStr title then
    (.err 400 "Title is required", db)
  else
    let note : Note :=
      { id := db.nextId
        title := title.getD ""
        content := content.getD ""
        created_at := now
        updated_at := now }
    (.ok note, { notes := db.notes ++ [note], nextId := db.nextId + 1 })

/-- The row transformation applied by the SQL
`UPDATE notes SET title = ?, content = ?, updated_at = CURRENT_TIMESTAMP WHERE id = ?`:
rows matching `id` get the new title, content and timestamp, others are kept. -/
def updRow (id : Nat) (t c : String) (now : Nat) (n : Note) : Note :=
  if n.id == id then
    { n with title := t, content := c, updated_at := now }
  else n

/-- `PUT /api/notes/:id` (`server.js` lines 164–195): reject a falsy title
with 400; run the UPDATE statement; if `this.changes === 0` respond 404;
otherwise re-select the row and respond with it.  (The final `.err 500`
branch is unreachable: when `changes ≠ 0` a row with this id exists.) -/
def updateNote (db : Db) (id : Nat) (title content : Option String)
    (now : Nat) : Resp Note × Db :=
  if falsyStr title then
    (.err 400 "Title is required", db)
  else
    let notes' := db.notes.map (updRow id (title.getD "") (content.getD "") now)
    let db' : Db := { db with notes := notes' }
    if db.notes.countP (fun n => n.id == id) == 0 then
      (.err 404 "Note not found", db')
    else
      match selectNote notes' id with
      | some row => (.ok row, db')
      | none => (.err 500 "row missing after update", db')

/-- `DELETE /api/notes/:id` (`server.js` lines 206–219): run
`DELETE FROM notes WHERE id = ?`; if `this.changes === 0` respond 404,
otherwise acknowledge.  The `ok` payload models `{ message: ... }`. -/
def deleteNote (db : Db) (id : Nat) : Resp String × Db :=
  let notes' := db.notes.filter (fun n => !(n.id == id))
  let db' : Db := { db with notes := notes' }
  if db.notes.countP (fun n => n.id == id) == 0 then
    (.err 404 "Note not found", db')
  else
    (.ok "Note deleted successfully", db')

/-- `GET /api/notes` (`server.js` lines 87–95):
`SELECT * FROM notes ORDER BY updated_at DESC`. -/
def listNotes (db : Db) : List Note :=
  db.notes.insertionSort (fun a b => b.updated_at ≤ a.updated_at)

/-! ## Summarization gateway (`POST /api/summarize`) -/

/-- Drop leading whitespace characters. -/
def dropLeadWs : List Char → List Char
  | [] => []
  | c :: cs => if c.isWhitespace then dropLeadWs cs else c :: cs

/-- JavaScript `s.trim()`: strip whitespace from both ends of the string. -/
def jsTrim (s : String) : String :=
  ⟨(dropLeadWs (dropLeadWs s.toList.reverse).reverse)⟩

/-- `needle` occurs as an initial run of `hay` (character lists). -/
def leadEq : List Char → List Char → Bool
  | [], _ => true
  | _ :: _, [] => false
  | a :: as, b :: bs => a == b && leadEq as bs

/-- `needle` occurs contiguously somewhere in `hay` (character lists). -/
def occursIn (needle hay : List Char) : Bool :=
  match hay with
  | [] => leadEq needle []
  | _ :: t => leadEq needle hay || occursIn needle t

/-- JavaScript `hay.includes(needle)` — substring test, used by the error
classification in the summarize handler. -/
def includes (hay needle : String) : Bool :=
  occursIn needle.toList hay.toList

/-- JavaScript string-or-else `a || b`: falls through on an absent or empty
string.  Models `errorData.error?.message || errorData.message || fallback`
with the parsed detail collapsed into one optional string. -/
def jsOr (a : Option String) (b : String) : String :=
  match a with
  | some s => if s == "" then b else s
  | none => b

/-- Outcome of the single outbound `fetch` to the xAI endpoint:
a 2xx response carrying `data.choices[0].message.content`, a non-ok HTTP
response (status plus the parsed error-detail message, if any), or a
transport failure carrying the thrown error's message. -/
inductive UpstreamResult where
  | ok : String → UpstreamResult
  | httpErr : Nat → Option String → UpstreamResult
  | netErr : String → UpstreamResult
deriving Repr, DecidableEq

/-- A response of the summarize endpoint: `{ summary }` on success, or an
error status with `{ error, details? }` (`details` only ever set on the
generic 500 branch). -/
inductive SumResp where
  | ok : String → SumResp
  | err : Nat → String → Option String → SumResp
deriving Repr, DecidableEq

/-- The message of the error object reaching the `catch` block: the thrown
`errorMessage` for a non-ok response, the transport error's message
otherwise (`server.js` lines 280–290). -/
def failMessage : Nat → Option String → String :=
  fun status detail => jsOr detail ("API returned status " ++ toString status)

/-- The `catch` block of the summarize handler (`server.js` lines 301–315):
classify the failure by substring inspection of its message; the 500 branch
attaches `details` only when `NODE_ENV === 'development'`. -/
def classifyFailure (msg : String) (nodeEnv : Option String) : SumResp :=
  if includes msg "401" || includes msg "Unauthorized" then
    .err 401 "Invalid xAI API key" none
  else if includes msg "429" || includes msg "rate limit" then
    .err 429 "xAI API rate limit exceeded. Please try again later." none
  else
    .err 500 "Failed to summarize text. Please try again."
      (if nodeEnv == some "development" then some msg else none)

/-- `POST /api/summarize` (`server.js` lines 233–316).  Arguments: the
request-body `text`, the `XAI_API_KEY` environment variable, what the
upstream call would return if made, and `NODE_ENV`.  Returns the response
together with a flag telling whether the outbound call was made. -/
def summarize (text : Option String) (apiKey : Option String)
    (upstream : UpstreamResult) (nodeEnv : Option String) :
    SumResp × Bool :=
  if falsyStr text || jsTrim (text.getD "") == "" then
    (.err 400 "Text is required for summarization" none, false)
  else if falsyStr apiKey then
    (.err 500
      "xAI API key not configured. Please set XAI_API_KEY in your .env file."
      none, false)
  else
    match upstream with
    | .ok content => (.ok (jsTrim content), true)
    | .httpErr status detail =>
        (classifyFailure (failMessage status detail) nodeEnv, true)
    | .netErr msg => (classifyFailure msg nodeEnv, true)

/-! ## Invariant -/

/-- Every stored note has a non-empty title. -/
def TitlesNonEmpty (db : Db) : Prop := ∀ n ∈ db.notes, n.title ≠ ""

/-! ## Helper lemmas -/

lemma falsyStr_eq_false {t : Option String} :
    falsyStr t = false ↔ ∃ s, t = some s ∧ s ≠ "" := by
  cases t with
  | none => simp [falsyStr]
  | some s => simp [falsyStr]

lemma falsyStr_some_of_ne {s : String} (h : s ≠ "") :
    falsyStr (some s) = false := by
  simp [falsyStr, h]

/-- `updRow` never changes the id of a row. -/
lemma updRow_id (id : Nat) (t c : String) (now : Nat) (n : Note) :
    (updRow id t c now n).id = n.id := by
  unfold updRow
  by_cases h : (n.id == id) = true
  · rw [if_pos h]
  · rw [if_neg h]

/-- `updRow` on a matching row overwrites title, content and `updated_at`. -/
lemma updRow_of_eq {id : Nat} (t c : String) (now : Nat) {n : Note}
    (h : (n.id == id) = true) :
    updRow id t c now n =
      { n with title := t, content := c, updated_at := now } := by
  unfold updRow
  rw [if_pos h]

/-- `updRow` keeps non-matching rows untouched. -/
lemma updRow_of_ne {id : Nat} (t c : String) (now : Nat) {n : Note}
    (h : ¬(n.id == id) = true) :
    updRow id t c now n = n := by
  unfold updRow
  rw [if_neg h]

/-- A map that preserves row ids commutes with the id lookup. -/
lemma find?_map_presId (f : Note → Note) (hf : ∀ n, (f n).id = n.id)
    (l : List Note) (id : Nat) :
    (l.map f).find? (fun n => n.id == id) =
      (l.find? (fun n => n.id == id)).map f := by
  induction l with
  | nil => rfl
  | cons a l ih =>
    by_cases h : (a.id == id) = true
    · have h' : ((f a).id == id) = true := by rw [hf a]; exact h
      simp [List.find?_cons, h, h']
    · have h' : ((f a).id == id) = false := by
        rw [hf a]
        cases hb : (a.id == id) with
        | false => rfl
        | true => exact absurd hb h
      simp [List.find?_cons, h, h', ih]

/-- On a found id, `updateNote` responds with the re-selected updated row
and its database applies `updRow` to every row. -/
lemma updateNote_found {db : Db} {id : Nat} {m : Note} (t : String)
    (c : Option String) (now : Nat)
    (hsel : selectNote db.notes id = some m) (ht : t ≠ "") :
    updateNote db id (some t) c now =
      (.ok { m with title := t, content := c.getD "", updated_at := now },
       { db with notes := db.notes.map (updRow id t (c.getD "") now) }) := by
  have hsel0 : db.notes.find? (fun n => n.id == id) = some m := hsel
  have hm : m ∈ db.notes := List.mem_of_find?_eq_some hsel0
  have hmid : (m.id == id) = true := by
    have h := List.find?_some hsel0
    simpa using h
  have hcount : (db.notes.countP (fun n => n.id == id) == 0) = false := by
    have hpos : 0 < db.notes.countP (fun n => n.id == id) :=
      List.countP_pos_iff.2 ⟨m, hm, hmid⟩
    cases h0 : (db.notes.countP (fun n => n.id == id) == 0) with
    | false => rfl
    | true =>
        simp only [beq_iff_eq] at h0
        omega
  have hsel' : selectNote (db.notes.map (updRow id t (c.getD "") now)) id =
      some { m with title := t, content := c.getD "", updated_at := now } := by
    unfold selectNote
    rw [find?_map_presId (updRow id t (c.getD "") now)
        (updRow_id id t (c.getD "") now) db.notes id, hsel0]
    simp [updRow_of_eq t (c.getD "") now hmid]
  dsimp only [updateNote]
  simp only [Option.getD_some]
  rw [if_neg (by simp [falsyStr_some_of_ne ht])]
  rw [if_neg (by simp [hcount])]
  rw [hsel']

/-! ## Claims -/

/-- C1: a Create request with an empty or missing title fails with 400 and
leaves the database unchanged, regardless of content; otherwise a new note
is inserted with content defaulted to `""` when absent, and the response is
the full created record including the assigned id. -/
theorem create_spec (db : Db) (title content : Option String) (now : Nat) :
    (falsyStr title = true →
      (createNote db title content now).1 = .err 400 "Title is required" ∧
      (createNote db title content now).2 = db) ∧
    (∀ t : String, title = some t → t ≠ "" →
      ∃ n : Note,
        (createNote db title content now).1 = .ok n ∧
        n.id = db.nextId ∧ n.title = t ∧ n.content = content.getD "" ∧
        n.created_at = now ∧ n.updated_at = now ∧
        (createNote db title content now).2.notes = db.notes ++ [n] ∧
        (createNote db title content now).2.nextId = db.nextId + 1) := by
  constructor
  · intro h
    simp [createNote, h]
  · rintro t rfl ht
    refine ⟨{ id := db.nextId, title := t, content := content.getD "",
              created_at := now, updated_at := now },
      ?_, rfl, rfl, rfl, rfl, rfl, ?_, ?_⟩ <;>
      simp [createNote, falsyStr_some_of_ne ht]

/-- Witness for C1 at concrete inputs. -/
theorem create_spec_witness :
    ((createNote ⟨[], 1⟩ none (some "no title") 3).1 =
        .err 400 "Title is required" ∧
      (createNote ⟨[], 1⟩ none (some "no title") 3).2 = ⟨[], 1⟩) ∧
    (∃ n : Note,
      (createNote ⟨[], 1⟩ (some "Groceries") (some "milk, eggs") 3).1 =
        .ok n ∧
      n.id = 1 ∧ n.title = "Groceries" ∧
      n.content = (some "milk, eggs").getD "" ∧
      n.created_at = 3 ∧ n.updated_at = 3 ∧
      (createNote ⟨[], 1⟩ (some "Groceries") (some "milk, eggs") 3).2.notes =
        [] ++ [n] ∧
      (createNote ⟨[], 1⟩ (some "Groceries") (some "milk, eggs") 3).2.nextId =
        1 + 1) :=
  ⟨(create_spec ⟨[], 1⟩ none (some "no title") 3).1 (by decide),
   (create_spec ⟨[], 1⟩ (some "Groceries") (some "milk, eggs") 3).2
     "Groceries" rfl (by decide)⟩

/-- C2: an Update request with an empty or missing title fails with 400 and
leaves the database unchanged; with a valid title but no matching note it
fails with 404 and changes no row; otherwise it overwrites the matching
note's title and content, refreshes `updated_at`, and responds with the
updated record. -/
theorem update_spec (db : Db) (id : Nat) (title content : Option String)
    (now : Nat) :
    (falsyStr title = true →
      (updateNote db id title content now).1 = .err 400 "Title is required" ∧
      (updateNote db id title content now).2 = db) ∧
    (falsyStr title = false → (∀ n ∈ db.notes, n.id ≠ id) →
      (updateNote db id title content now).1 = .err 404 "Note not found" ∧
      (updateNote db id title content now).2.notes = db.notes) ∧
    (∀ t : String, title = some t → t ≠ "" →
      (db.notes.map Note.id).Nodup →
      ∀ m, selectNote db.notes id = some m →
        ∃ n : Note,
          (updateNote db id title content now).1 = .ok n ∧
          n.id = m.id ∧ n.created_at = m.created_at ∧
          n.title = t ∧ n.content = content.getD "" ∧ n.updated_at = now ∧
          (updateNote db id title content now).2.notes =
            db.notes.map (fun x => if x.id == id then n else x)) := by
  refine ⟨?_, ?_, ?_⟩
  · intro h
    constructor <;> simp [updateNote, h]
  · intro hf hnone
    have hc : db.notes.countP (fun n => n.id == id) = 0 :=
      List.countP_eq_zero.2 (by intro a ha; simpa using hnone a ha)
    have hmapid :
        db.notes.map (updRow id (title.getD "") (content.getD "") now) =
          db.notes := by
      have h1 : ∀ a ∈ db.notes,
          updRow id (title.getD "") (content.getD "") now a = a :=
        fun a ha => updRow_of_ne _ _ _ (by simpa using hnone a ha)
      calc db.notes.map (updRow id (title.getD "") (content.getD "") now)
          = db.notes.map (fun a => a) := List.map_congr_left h1
        _ = db.notes := by simp
    constructor <;> simp [updateNote, hf, hc, hmapid]
  · rintro t rfl ht hnd m hm
    have hm0 : db.notes.find? (fun n => n.id == id) = some m := hm
    have hmem : m ∈ db.notes := List.mem_of_find?_eq_some hm0
    have hmid : (m.id == id) = true := by
      have h := List.find?_some hm0
      simpa using h
    have h := updateNote_found t content now hm ht
    refine ⟨{ m with title := t, content := content.getD "", updated_at := now }, ?_, rfl, rfl, rfl, rfl, rfl, ?_⟩
    · rw [h]
    · rw [h]
      dsimp only
      apply List.map_congr_left
      intro a ha
      by_cases hid : (a.id == id) = true
      · have ha_eq : a = m := by
          apply List.inj_on_of_nodup_map hnd ha hmem
          have h1 : a.id = id := by simpa using hid
          have h2 : m.id = id := by simpa using hmid
          simp [h1, h2]
        rw [updRow_of_eq t (content.getD "") now hid, if_pos hid, ha_eq]
      · rw [updRow_of_ne _ _ _ hid, if_neg hid]

/-- Witness for C2 at concrete inputs. -/
theorem update_spec_witness :
    ((updateNote ⟨[⟨1, "a", "x", 1, 1⟩], 2⟩ 1 none none 9).1 =
        .err 400 "Title is required" ∧
      (updateNote ⟨[⟨1, "a", "x", 1, 1⟩], 2⟩ 1 none none 9).2 =
        ⟨[⟨1, "a", "x", 1, 1⟩], 2⟩) ∧
    ((updateNote ⟨[⟨1, "a", "x", 1, 1⟩], 2⟩ 5 (some "b") none 9).1 =
        .err 404 "Note not found" ∧
      (updateNote ⟨[⟨1, "a", "x", 1, 1⟩], 2⟩ 5 (some "b") none 9).2.notes =
        [⟨1, "a", "x", 1, 1⟩]) ∧
    (∃ n : Note,
      (updateNote ⟨[⟨1, "a", "x", 1, 1⟩], 2⟩ 1 (some "b") (some "y") 9).1 =
        .ok n ∧
      n.id = (⟨1, "a", "x", 1, 1⟩ : Note).id ∧
      n.created_at = (⟨1, "a", "x", 1, 1⟩ : Note).created_at ∧
      n.title = "b" ∧ n.content = (some "y").getD "" ∧ n.updated_at = 9 ∧
      (updateNote ⟨[⟨1, "a", "x", 1, 1⟩], 2⟩ 1 (some "b") (some "y") 9).2.notes =
        [⟨1, "a", "x", 1, 1⟩].map (fun x => if x.id == 1 then n else x)) :=
  ⟨(update_spec ⟨[⟨1, "a", "x", 1, 1⟩], 2⟩ 1 none none 9).1 (by decide),
   (update_spec ⟨[⟨1, "a", "x", 1, 1⟩], 2⟩ 5 (some "b") none 9).2.1
     (by decide) (by decide),
   (update_spec ⟨[⟨1, "a", "x", 1, 1⟩], 2⟩ 1 (some "b") (some "y") 9).2.2
     "b" rfl (by decide) (by decide) ⟨1, "a", "x", 1, 1⟩ (by decide)⟩

/-- C3: a successful Update on an existing id keeps the note's `id` and
`created_at` and, the clock having advanced since creation, yields
`updated_at` strictly greater than `created_at`. -/
theorem update_frame (db : Db) (id : Nat) (title content : Option String)
    (now : Nat) (m : Note) (t : String)
    (htitle : title = some t) (ht : t ≠ "")
    (hsel : selectNote db.notes id = some m)
    (hclock : m.created_at < now) :
    ∃ n : Note, (updateNote db id title content now).1 = .ok n ∧
      n.id = m.id ∧ n.created_at = m.created_at ∧
      n.created_at < n.updated_at := by
  subst htitle
  have h := updateNote_found t content now hsel ht
  refine ⟨{ m with title := t, content := content.getD "", updated_at := now }, ?_, rfl, rfl, hclock⟩
  rw [h]

/-- Witness for C3 at a concrete input. -/
theorem update_frame_witness :
    ∃ n : Note,
      (updateNote ⟨[⟨1, "a", "x", 1, 1⟩], 2⟩ 1 (some "b") none 9).1 =
        .ok n ∧
      n.id = (⟨1, "a", "x", 1, 1⟩ : Note).id ∧
      n.created_at = (⟨1, "a", "x", 1, 1⟩ : Note).created_at ∧
      n.created_at < n.updated_at :=
  update_frame ⟨[⟨1, "a", "x", 1, 1⟩], 2⟩ 1 (some "b") none 9
    ⟨1, "a", "x", 1, 1⟩ "b" rfl (by decide) (by decide) (by decide)

/-- The database component of `deleteNote`: the DELETE statement always ran,
so the remaining rows are the non-matching ones in both branches. -/
lemma deleteNote_db (db : Db) (id : Nat) :
    (deleteNote db id).2 =
      { db with notes := db.notes.filter (fun n => !(n.id == id)) } := by
  unfold deleteNote
  by_cases h : (db.notes.countP (fun n => n.id == id) == 0) = true
  · rw [if_pos h]
  · rw [if_neg h]

/-- C4: Delete on a non-existent id fails with 404 (never success) and
removes nothing; Delete on an existing id removes the record, acknowledges
with "Note deleted successfully", and a Get on the same id afterwards
yields 404. -/
theorem delete_spec (db : Db) (id : Nat) :
    ((∀ n ∈ db.notes, n.id ≠ id) →
      (deleteNote db id).1 = .err 404 "Note not found" ∧
      (deleteNote db id).2.notes = db.notes) ∧
    ((∃ n ∈ db.notes, n.id = id) →
      (deleteNote db id).1 = .ok "Note deleted successfully" ∧
      (deleteNote db id).2.notes =
        db.notes.filter (fun n => !(n.id == id)) ∧
      getNote (deleteNote db id).2 id = .err 404 "Note not found") := by
  constructor
  · intro hnone
    have hc : db.notes.countP (fun n => n.id == id) = 0 :=
      List.countP_eq_zero.2 (by intro a ha; simpa using hnone a ha)
    have hfil : db.notes.filter (fun n => !(n.id == id)) = db.notes :=
      List.filter_eq_self.2 (by intro a ha; simpa using hnone a ha)
    refine ⟨by simp [deleteNote, hc], ?_⟩
    rw [deleteNote_db, hfil]
  · rintro ⟨n0, hn0, hid0⟩
    have hcpos : 0 < db.notes.countP (fun n => n.id == id) :=
      List.countP_pos_iff.2 ⟨n0, hn0, by simpa using hid0⟩
    have hc : (db.notes.countP (fun n => n.id == id) == 0) = false := by
      cases h0 : (db.notes.countP (fun n => n.id == id) == 0) with
      | false => rfl
      | true =>
          simp only [beq_iff_eq] at h0
          omega
    have hsel : selectNote (db.notes.filter (fun n => !(n.id == id))) id =
        none := by
      unfold selectNote
      rw [List.find?_eq_none]
      intro x hx
      have hmem := (List.mem_filter.1 hx).2
      simpa using hmem
    refine ⟨?_, ?_, ?_⟩
    · dsimp only [deleteNote]
      rw [if_neg (by simp [hc])]
    · rw [deleteNote_db]
    · rw [deleteNote_db]
      unfold getNote
      rw [hsel]

/-- Witness for C4 at concrete inputs. -/
theorem delete_spec_witness :
    ((deleteNote ⟨[⟨1, "a", "x", 1, 1⟩], 2⟩ 5).1 =
        .err 404 "Note not found" ∧
      (deleteNote ⟨[⟨1, "a", "x", 1, 1⟩], 2⟩ 5).2.notes =
        [⟨1, "a", "x", 1, 1⟩]) ∧
    ((deleteNote ⟨[⟨1, "a", "x", 1, 1⟩], 2⟩ 1).1 =
        .ok "Note deleted successfully" ∧
      (deleteNote ⟨[⟨1, "a", "x", 1, 1⟩], 2⟩ 1).2.notes =
        [⟨1, "a", "x", 1, 1⟩].filter (fun n => !(n.id == 1)) ∧
      getNote (deleteNote ⟨[⟨1, "a", "x", 1, 1⟩], 2⟩ 1).2 1 =
        .err 404 "Note not found") :=
  ⟨(delete_spec ⟨[⟨1, "a", "x", 1, 1⟩], 2⟩ 5).1 (by decide),
   (delete_spec ⟨[⟨1, "a", "x", 1, 1⟩], 2⟩ 1).2 ⟨⟨1, "a", "x", 1, 1⟩,
     by decide, by decide⟩⟩

instance : IsTotal Note (fun a b => b.updated_at ≤ a.updated_at) :=
  ⟨fun a b => le_total b.updated_at a.updated_at⟩

instance : IsTrans Note (fun a b => b.updated_at ≤ a.updated_at) :=
  ⟨fun _ _ _ h1 h2 => le_trans h2 h1⟩

/-- C5: List returns exactly the stored notes, ordered by `updated_at`
descending, and a freshly created note (its timestamp newer than every
stored one) appears first in the List result. -/
theorem list_spec (db : Db) (title content : Option String) (now : Nat) :
    (listNotes db).Perm db.notes ∧
    (listNotes db).Sorted (fun a b => b.updated_at ≤ a.updated_at) ∧
    (∀ t : String, title = some t → t ≠ "" →
      (∀ n ∈ db.notes, n.updated_at < now) →
      ∃ n : Note, (createNote db title content now).1 = .ok n ∧
        (listNotes (createNote db title content now).2).head? = some n) := by
  refine ⟨List.perm_insertionSort _ _, List.sorted_insertionSort _ _, ?_⟩
  rintro t rfl ht hlt
  set note : Note := { id := db.nextId, title := t, content := content.getD "", created_at := now, updated_at := now } with hnote
  have hcr : createNote db (some t) content now =
      (.ok note, { notes := db.notes ++ [note], nextId := db.nextId + 1 }) := by
    unfold createNote
    rw [if_neg (by simp [falsyStr_some_of_ne ht])]
    rfl
  refine ⟨note, by rw [hcr], ?_⟩
  rw [hcr]
  set L := listNotes { notes := db.notes ++ [note], nextId := db.nextId + 1 }
    with hL
  have hperm : L.Perm (db.notes ++ [note]) := List.perm_insertionSort _ _
  have hsorted : L.Sorted (fun a b => b.updated_at ≤ a.updated_at) :=
    List.sorted_insertionSort _ _
  have hmem : note ∈ L := hperm.mem_iff.2 (by simp)
  obtain ⟨h0, tl, hLe⟩ := List.exists_cons_of_ne_nil (List.ne_nil_of_mem hmem)
  have hsorted' := hLe ▸ hsorted
  have hperm' := hLe ▸ hperm
  have hmem' := hLe ▸ hmem
  have hh : h0 ∈ db.notes ++ [note] := hperm'.subset (List.mem_cons_self h0 tl)
  have hkey : h0 = note := by
    rcases List.mem_append.1 hh with hh1 | hh2
    · have hlt' : h0.updated_at < now := hlt h0 hh1
      rcases List.mem_cons.1 hmem' with he | htl
      · exact he.symm
      · have hle := List.rel_of_sorted_cons hsorted' note htl
        exfalso
        have hnow : now ≤ h0.updated_at := hle
        omega
    · simpa using hh2
  rw [hLe, hkey]
  rfl

/-- Witness for C5 at concrete inputs. -/
theorem list_spec_witness :
    (listNotes ⟨[⟨1, "a", "", 1, 1⟩], 2⟩).Perm [⟨1, "a", "", 1, 1⟩] ∧
    ∃ n : Note,
      (createNote ⟨[⟨1, "a", "", 1, 1⟩], 2⟩ (some "b") none 5).1 = .ok n ∧
      (listNotes (createNote ⟨[⟨1, "a", "", 1, 1⟩], 2⟩
        (some "b") none 5).2).head? = some n :=
  ⟨(list_spec ⟨[⟨1, "a", "", 1, 1⟩], 2⟩ (some "b") none 5).1,
   (list_spec ⟨[⟨1, "a", "", 1, 1⟩], 2⟩ (some "b") none 5).2.2 "b" rfl
     (by decide) (by decide)⟩

/-- Dropping leading whitespace from an all-whitespace list leaves nothing. -/
lemma dropLeadWs_eq_nil {l : List Char} (h : ∀ c ∈ l, c.isWhitespace) :
    dropLeadWs l = [] := by
  induction l with
  | nil => rfl
  | cons c cs ih =>
    unfold dropLeadWs
    rw [if_pos (h c (List.mem_cons_self c cs))]
    exact ih (fun x hx => h x (List.mem_cons_of_mem c hx))

/-- A string of whitespace characters trims to the empty string. -/
lemma jsTrim_of_all_ws {s : String} (h : ∀ c ∈ s.toList, c.isWhitespace) :
    jsTrim s = "" := by
  have h1 : dropLeadWs s.toList.reverse = [] :=
    dropLeadWs_eq_nil (by intro c hc; exact h c (List.mem_reverse.1 hc))
  unfold jsTrim
  rw [h1]
  rfl

/-- C6: a Summarize request whose text is missing, empty, or consists only
of whitespace fails with 400 and the outbound upstream call is never made
(the call flag of the model is `false`). -/
theorem summarize_empty_text (text apiKey : Option String)
    (up : UpstreamResult) (env : Option String)
    (h : text = none ∨ ∃ s, text = some s ∧ ∀ c ∈ s.toList, c.isWhitespace) :
    summarize text apiKey up env =
      (.err 400 "Text is required for summarization" none, false) := by
  rcases h with rfl | ⟨s, rfl, hws⟩
  · rfl
  · have ht : jsTrim s = "" := jsTrim_of_all_ws hws
    simp [summarize, ht]

/-- Witness for C6 at a concrete input. -/
theorem summarize_empty_text_witness :
    summarize (some "  ") (some "key") (.ok "sum") (some "development") =
      (.err 400 "Text is required for summarization" none, false) :=
  summarize_empty_text (some "  ") (some "key") (.ok "sum")
    (some "development") (Or.inr ⟨"  ", rfl, by decide⟩)

/-- C7: a Summarize request with non-empty text fails with a 500
configuration error when the `XAI_API_KEY` credential is absent, and the
outbound upstream call is never made. -/
theorem summarize_no_key (s : String) (up : UpstreamResult)
    (env : Option String) (hs : jsTrim s ≠ "") :
    summarize (some s) none up env =
      (.err 500
        "xAI API key not configured. Please set XAI_API_KEY in your .env file."
        none, false) := by
  have hse : s ≠ "" := by
    intro h
    subst h
    exact hs rfl
  simp [summarize, falsyStr_some_of_ne hse, hs, hse, falsyStr]

/-- Witness for C7 at a concrete input. -/
theorem summarize_no_key_witness :
    summarize (some "hello") none (.ok "sum") (some "development") =
      (.err 500
        "xAI API key not configured. Please set XAI_API_KEY in your .env file."
        none, false) :=
  summarize_no_key "hello" (.ok "sum") (some "development") (by decide)

/-- C8: an upstream failure of Summarize is classified by substring
inspection of the failure's message: an authentication signal ("401" or
"Unauthorized") maps to 401, a rate-limit signal ("429" or "rate limit")
maps to 429, and anything else maps to a generic 500 whose `details` field
carries the message only when `NODE_ENV` is `development`. -/
theorem summarize_failure_classification (s key : String) (env : Option String)
    (up : UpstreamResult) (msg : String)
    (hs : jsTrim s ≠ "") (hk : key ≠ "")
    (hup : up = .netErr msg ∨
      ∃ st d, up = .httpErr st d ∧ msg = failMessage st d) :
    (summarize (some s) (some key) up env).2 = true ∧
    (summarize (some s) (some key) up env).1 =
      (if includes msg "401" || includes msg "Unauthorized" then
        SumResp.err 401 "Invalid xAI API key" none
      else if includes msg "429" || includes msg "rate limit" then
        SumResp.err 429 "xAI API rate limit exceeded. Please try again later."
          none
      else
        SumResp.err 500 "Failed to summarize text. Please try again."
          (if env == some "development" then some msg else none)) := by
  have hse : s ≠ "" := by
    intro h
    subst h
    exact hs rfl
  rcases hup with rfl | ⟨st, d, rfl, rfl⟩ <;>
    refine ⟨?_, ?_⟩ <;>
      simp [summarize, falsyStr_some_of_ne hse, falsyStr_some_of_ne hk, hs,
        classifyFailure]

/-- Witness for C8 at a concrete input. -/
theorem summarize_failure_classification_witness :
    (summarize (some "hi") (some "k") (.netErr "boom 401") none).2 = true ∧
    (summarize (some "hi") (some "k") (.netErr "boom 401") none).1 =
      .err 401 "Invalid xAI API key" none := by
  have h := summarize_failure_classification "hi" "k" none (.netErr "boom 401")
    "boom 401" (by decide) (by decide) (Or.inl rfl)
  exact ⟨h.1, h.2.trans (by decide)⟩

/-- The database component of a valid-title `updateNote`: the UPDATE
statement ran, whether or not any row matched. -/
lemma updateNote_notes_of_valid (db : Db) (id : Nat) (t : String)
    (c : Option String) (now : Nat) (ht : t ≠ "") :
    (updateNote db id (some t) c now).2.notes =
      db.notes.map (updRow id t (c.getD "") now) := by
  dsimp only [updateNote]
  simp only [Option.getD_some]
  rw [if_neg (by simp [falsyStr_some_of_ne ht])]
  by_cases h : (db.notes.countP (fun n => n.id == id) == 0) = true
  · rw [if_pos h]
  · rw [if_neg h]
    cases hsel : selectNote (db.notes.map (updRow id t (c.getD "") now)) id
      with
    | none => rfl
    | some row => rfl

/-- C9: the non-empty-title invariant is preserved by every operation:
Create and Update only store validated titles, Delete and the read
operations never introduce a row, so every note reachable through any
endpoint has a non-empty title. -/
theorem titles_invariant (db : Db) (h : TitlesNonEmpty db) :
    (∀ title content now,
      TitlesNonEmpty (createNote db title content now).2) ∧
    (∀ id title content now,
      TitlesNonEmpty (updateNote db id title content now).2) ∧
    (∀ id, TitlesNonEmpty (deleteNote db id).2) ∧
    (∀ id n, getNote db id = .ok n → n.title ≠ "") ∧
    (∀ n ∈ listNotes db, n.title ≠ "") := by
  refine ⟨?_, ?_, ?_, ?_, ?_⟩
  · intro title content now
    cases hft : falsyStr title with
    | true =>
        intro n hn
        have hdb : (createNote db title content now).2 = db := by
          simp [createNote, hft]
        rw [hdb] at hn
        exact h n hn
    | false =>
        obtain ⟨t, rfl, ht⟩ := falsyStr_eq_false.1 hft
        intro n hn
        have h2 : (createNote db (some t) content now).2.notes =
            db.notes ++ [{ id := db.nextId, title := t, content := content.getD "", created_at := now, updated_at := now }] := by
          simp [createNote, hft]
        rw [h2] at hn
        rcases List.mem_append.1 hn with hmem | hmem
        · exact h n hmem
        · have he : n = { id := db.nextId, title := t, content := content.getD "", created_at := now, updated_at := now } := by simpa using hmem
          rw [he]
          exact ht
  · intro id title content now
    cases hft : falsyStr title with
    | true =>
        intro n hn
        have hdb : (updateNote db id title content now).2 = db := by
          simp [updateNote, hft]
        rw [hdb] at hn
        exact h n hn
    | false =>
        obtain ⟨t, rfl, ht⟩ := falsyStr_eq_false.1 hft
        intro n hn
        rw [updateNote_notes_of_valid db id t content now ht] at hn
        obtain ⟨a, ha, rfl⟩ := List.mem_map.1 hn
        by_cases hid : (a.id == id) = true
        · rw [updRow_of_eq t (content.getD "") now hid]
          exact ht
        · rw [updRow_of_ne _ _ _ hid]
          exact h a ha
  · intro id n hn
    rw [deleteNote_db] at hn
    have hmem : n ∈ db.notes := (List.mem_filter.1 hn).1
    exact h n hmem
  · intro id n hok
    unfold getNote at hok
    cases hsel : selectNote db.notes id with
    | none =>
        rw [hsel] at hok
        simp at hok
    | some row =>
        rw [hsel] at hok
        simp at hok
        rw [← hok]
        exact h row (List.mem_of_find?_eq_some hsel)
  · intro n hn
    have hn0 : n ∈ db.notes.insertionSort
        (fun a b => b.updated_at ≤ a.updated_at) := hn
    exact h n (by simpa using hn0)

/-- Witness for C9 at concrete inputs. -/
theorem titles_invariant_witness :
    TitlesNonEmpty (createNote ⟨[⟨1, "a", "x", 1, 1⟩], 2⟩
      (some "b") none 5).2 ∧
    TitlesNonEmpty (updateNote ⟨[⟨1, "a", "x", 1, 1⟩], 2⟩ 1
      (some "b") none 5).2 ∧
    TitlesNonEmpty (deleteNote ⟨[⟨1, "a", "x", 1, 1⟩], 2⟩ 1).2 :=
  ⟨(titles_invariant ⟨[⟨1, "a", "x", 1, 1⟩], 2⟩ (by unfold TitlesNonEmpty; decide)).1
     (some "b") none 5,
   (titles_invariant ⟨[⟨1, "a", "x", 1, 1⟩], 2⟩ (by unfold TitlesNonEmpty; decide)).2.1 1
     (some "b") none 5,
   (titles_invariant ⟨[⟨1, "a", "x", 1, 1⟩], 2⟩ (by unfold TitlesNonEmpty; decide)).2.2.1 1⟩

/-- C10: a title consisting only of whitespace passes the Create and Update
validation and is stored as-is (no trimming), while Summarize trims its
text first and rejects the same whitespace-only string. -/
theorem whitespace_title_accepted (db : Db) (content : Option String)
    (now : Nat) (key : Option String) (up : UpstreamResult)
    (env : Option String) :
    (∃ n : Note, (createNote db (some " ") content now).1 = .ok n ∧
      n.title = " " ∧
      (createNote db (some " ") content now).2.notes = db.notes ++ [n]) ∧
    (∀ id m, selectNote db.notes id = some m →
      ∃ n : Note, (updateNote db id (some " ") content now).1 = .ok n ∧
        n.title = " ") ∧
    summarize (some " ") key up env =
      (.err 400 "Text is required for summarization" none, false) := by
  refine ⟨?_, ?_, ?_⟩
  · refine ⟨{ id := db.nextId, title := " ", content := content.getD "", created_at := now, updated_at := now }, ?_, rfl, ?_⟩ <;>
      simp [createNote, falsyStr]
  · intro id m hm
    have h := updateNote_found " " content now hm (by decide)
    refine ⟨{ m with title := " ", content := content.getD "", updated_at := now }, ?_, rfl⟩
    rw [h]
  · unfold summarize
    rw [if_pos (by decide)]

/-- Witness for C10 at a concrete input. -/
theorem whitespace_title_accepted_witness :
    ∃ n : Note,
      (updateNote ⟨[⟨1, "a", "x", 1, 1⟩], 2⟩ 1 (some " ") none 9).1 =
        .ok n ∧
      n.title = " " :=
  (whitespace_title_accepted ⟨[⟨1, "a", "x", 1, 1⟩], 2⟩ none 9 none
    (.ok "s") none).2.1 1 ⟨1, "a", "x", 1, 1⟩ (by decide)

end BeliLite
